import Mathlib

/-!
Verification of the vibe-code-runner execution sandbox (the `src/figma-plugin`
plugin tree, built by `build.mjs`): console.service.ts (Diagnostics Capture),
proxy-fetch.service.ts (Network Capability Proxy), ui-bridge.service.ts
(UI/Host Capability Proxy) and executor.service.ts (Executor).

The TypeScript modules keep their state in module-level variables; here that
state is passed explicitly.  Asynchronous callbacks (timeout fire, promise
resolution/rejection, close callback) are modelled as named functions over the
state, each carrying the execution id it captured when it was created.
Events sent over the bridge (`callbacks.sendToUI(...)`) and promise
settlements performed by the network proxy are returned as explicit lists.
-/

set_option maxRecDepth 4000

namespace Runner

/-- A JavaScript value, as far as the sandboxed services inspect one:
`serialize` in console.service.ts distinguishes strings (pass through),
Error-like values (stack extraction) and everything else (JSON.stringify
with a String(a) fallback). -/
inductive JsValue where
  | nullV
  | undef
  | boolV (b : Bool)
  | num (n : Int)
  | str (s : String)
  | errV (message : String) (stack : Option String)
deriving DecidableEq, Repr

/-- `JSON.stringify` on the values above. `none` models the calls that return
the JavaScript value `undefined` (stringifying `undefined` itself).  String
escaping of inner quotes is not modelled; no claim depends on it.
`JSON.stringify(new Error(...))` yields an empty object literal. -/
def jsonStringify : JsValue → Option String
  | .undef => none
  | .nullV => some "null"
  | .boolV b => some (if b then "true" else "false")
  | .num n => some (toString n)
  | .str s => some ("\"" ++ s ++ "\"")
  | .errV _ _ => some "\x7b\x7d"

/-- `String(a)` coercion, the fallback of `serialize`. -/
def jsString : JsValue → String
  | .undef => "undefined"
  | .nullV => "null"
  | .boolV b => if b then "true" else "false"
  | .num n => toString n
  | .str s => s
  | .errV m _ => "Error: " ++ m

-- ============================================================
-- console.service.ts — Diagnostics Capture
-- ============================================================

/-- Log levels of console.service.ts. -/
inductive LogLevel where
  | info
  | warn
  | error
deriving DecidableEq, Repr

/-- `CapturedLog` of console.service.ts.  `source` is the string literal the
service writes ("console" for intercepted calls). -/
structure CapturedLog where
  level : LogLevel
  message : String
  timestamp : Nat
  source : String
  stackTrace : Option String
deriving DecidableEq, Repr

/-- The module-level state of console.service.ts: `isOverridden`, the saved
original console functions (modelled by their presence, `origSaved`),
`logCount` and `capReached`. -/
structure ConsoleState where
  isOverridden : Bool
  origSaved : Bool
  logCount : Nat
  capReached : Bool
deriving DecidableEq, Repr

/-- `MAX_LOGS_PER_EXECUTION` in console.service.ts. -/
def MAX_LOGS_PER_EXECUTION : Nat := 1000

/-- The message of the synthetic cap-reached warning (checkCap). -/
def capMessage : String :=
  "[Runner] Limite de 1000 logs atteinte — logs suivants ignores."

/-- `serialize(...args)` of console.service.ts: strings pass through,
everything else goes through `JSON.stringify` (elements the stringifier
leaves `undefined` become the empty string when `join` runs), joined by a
space.  The `catch` branch (`String(a)`) is unreachable for the modelled
values, since `jsonStringify` is total here. -/
def serialize (args : List JsValue) : String :=
  String.intercalate " "
    (args.map fun a =>
      match a with
      | .str s => s
      | _ => (jsonStringify a).getD (jsString a))

/-- `extractStack(args)`: the stack of the first argument that is an Error
with a truthy `stack`. -/
def extractStack : List JsValue → Option String
  | [] => none
  | .errV _ (some s) :: rest =>
      if s = "" then extractStack rest else some s
  | _ :: rest => extractStack rest

/-- One intercepted console call: which overridden function ran (its level),
its arguments, and the `Date.now()` at that instant. -/
structure ConsoleCallInput where
  level : LogLevel
  args : List JsValue
  time : Nat
deriving DecidableEq, Repr

/-- The synthetic warning entry emitted by `checkCap` when the cap is first
reached. -/
def capEntry (time : Nat) : CapturedLog :=
  { level := .warn
    message := capMessage
    timestamp := time
    source := "console"
    stackTrace := none }

/-- The `CapturedLog` an intercepted call below the cap delivers: console.log
gives level info, console.warn gives warn, console.error gives error and is
the only one that extracts a stack trace. -/
def mkEntry (i : ConsoleCallInput) : CapturedLog :=
  { level := i.level
    message := serialize i.args
    timestamp := i.time
    source := "console"
    stackTrace := match i.level with | .error => extractStack i.args | _ => none }

/-- `checkCap(callback)`: returns the updated state, the entries it delivered
through the callback itself (the one synthetic warning), and the boolean the
caller uses to skip the normal entry. -/
def checkCap (st : ConsoleState) (time : Nat) :
    ConsoleState × List CapturedLog × Bool :=
  if st.capReached then (st, [], true)
  else if MAX_LOGS_PER_EXECUTION ≤ st.logCount then
    ({ st with capReached := true }, [capEntry time], true)
  else (st, [], false)

/-- The body shared by the three overridden console functions: forward to the
original (a host-side effect, not captured here), run `checkCap`, and if the
cap was not hit increment `logCount` and deliver the built entry. -/
def consoleIntercept (i : ConsoleCallInput) (st : ConsoleState) :
    ConsoleState × List CapturedLog :=
  match checkCap st i.time with
  | (st1, delivered, true) => (st1, delivered)
  | (st1, delivered, false) =>
      ({ st1 with logCount := st1.logCount + 1 }, delivered ++ [mkEntry i])

/-- `override(callback)`: no-op if already overridden, otherwise resets the
per-run counter and cap flag, saves the originals and installs the
interceptors. -/
def overrideConsole (st : ConsoleState) : ConsoleState :=
  if st.isOverridden then st
  else { isOverridden := true, origSaved := true, logCount := 0, capReached := false }

/-- `restore()`: no-op if not overridden, otherwise puts the original console
functions back and forgets them. -/
def consoleRestore (st : ConsoleState) : ConsoleState :=
  if st.isOverridden then { st with isOverridden := false, origSaved := false }
  else st

/-- A sequence of intercepted console calls within one override session,
collecting every entry delivered to the callback in order. -/
def runCalls : List ConsoleCallInput → ConsoleState → ConsoleState × List CapturedLog
  | [], st => (st, [])
  | i :: rest, st =>
      let p := consoleIntercept i st
      let q := runCalls rest p.fst
      (q.fst, p.snd ++ q.snd)

theorem runCalls_capReached (l : List ConsoleCallInput) (st : ConsoleState)
    (h : st.capReached = true) : runCalls l st = (st, []) := by
  induction l with
  | nil => rfl
  | cons i rest ih =>
      simp [runCalls, consoleIntercept, checkCap, h, ih]

theorem runCalls_below_cap (l : List ConsoleCallInput) (st : ConsoleState)
    (hc : st.capReached = false)
    (hn : st.logCount + l.length ≤ MAX_LOGS_PER_EXECUTION) :
    runCalls l st = ({ st with logCount := st.logCount + l.length }, l.map mkEntry) := by
  induction l generalizing st with
  | nil => simp [runCalls]
  | cons i rest ih =>
      have hlt : ¬ MAX_LOGS_PER_EXECUTION ≤ st.logCount := by
        simp only [List.length_cons] at hn
        omega
      have hrec := ih { st with logCount := st.logCount + 1 } (by simp [hc])
        (by simp only [List.length_cons] at hn ⊢; omega)
      simp only [hc] at hrec
      have harith : st.logCount + 1 + rest.length = st.logCount + (rest.length + 1) := by
        omega
      simp [runCalls, consoleIntercept, checkCap, hc, hlt, harith, hrec]

theorem runCalls_at_cap (i : ConsoleCallInput) (rest : List ConsoleCallInput)
    (st : ConsoleState) (hc : st.capReached = false)
    (hn : st.logCount = MAX_LOGS_PER_EXECUTION) :
    runCalls (i :: rest) st = ({ st with capReached := true }, [capEntry i.time]) := by
  have hge : MAX_LOGS_PER_EXECUTION ≤ st.logCount := by omega
  simp only [runCalls, consoleIntercept, checkCap, hc, Bool.false_eq_true,
    if_neg, ite_false, hge, if_true, ite_true]
  simp [runCalls_capReached rest { st with capReached := true } rfl]

-- ============================================================
-- proxy-fetch.service.ts — Network Capability Proxy
-- ============================================================

/-- `ProxyResponse` of proxy-fetch.service.ts.  `headers` is the
`Record<string, string>` as an association list; `body` is
`string | null`; `consumed` is the private `_consumed` flag. -/
structure ProxyResponse where
  ok : Bool
  status : Int
  statusText : String
  headers : List (String × String)
  body : Option String
  consumed : Bool
deriving DecidableEq, Repr

/-- The error message thrown by a body accessor once the body was consumed. -/
def consumedMsg : String := "Response body already consumed"

/-- `text()`: rejects once consumed, otherwise marks the body consumed and
resolves with `this._body || ''`. -/
def ProxyResponse.text (r : ProxyResponse) : Except String (String × ProxyResponse) :=
  if r.consumed then .error consumedMsg
  else .ok ((r.body.getD ""), { r with consumed := true })

/-- `json()`: rejects once consumed, otherwise marks the body consumed; a
falsy body (`null` or the empty string) resolves to `null` without any
parsing, otherwise the result is `JSON.parse(this._body)`.  The parser is a
host primitive and is passed in as `parse` (it may throw). -/
def ProxyResponse.json (parse : String → Except String JsValue) (r : ProxyResponse) :
    Except String (JsValue × ProxyResponse) :=
  if r.consumed then .error consumedMsg
  else
    let r1 := { r with consumed := true }
    match r.body with
    | none => .ok (JsValue.nullV, r1)
    | some b =>
        if b = "" then .ok (JsValue.nullV, r1)
        else (parse b).map (fun v => (v, r1))

/-- The structure `blob()` resolves with (the sandbox has no Blob). -/
structure BlobLike where
  size : Nat
  typeName : String
  text : String
deriving DecidableEq, Repr

/-- `blob()`: rejects once consumed, otherwise marks the body consumed and
resolves with a size/type/text record; the type falls back to
application/octet-stream when no content-type header is present. -/
def ProxyResponse.blob (r : ProxyResponse) : Except String (BlobLike × ProxyResponse) :=
  if r.consumed then .error consumedMsg
  else
    let t := r.body.getD ""
    let ct := ((r.headers.lookup "content-type").getD "application/octet-stream")
    .ok ({ size := t.length, typeName := ct, text := t }, { r with consumed := true })

/-- `arrayBuffer()`: always rejects. -/
def ProxyResponse.arrayBuffer (_r : ProxyResponse) : Except String Unit :=
  .error "[proxy-fetch] arrayBuffer() not supported in Figma sandbox"

/-- `clone()`: a fresh `ProxyResponse` over the same body snapshot (headers
copied, `_consumed` starts false again). -/
def ProxyResponse.clone (r : ProxyResponse) : ProxyResponse :=
  { ok := r.ok
    status := r.status
    statusText := r.statusText
    headers := r.headers
    body := r.body
    consumed := false }

/-- A `PendingRequest` table entry: resolver and rejecter are identified by
the correlation id of the entry, so only the timer handle remains as data. -/
structure PendingInfo where
  timerArmed : Bool
deriving DecidableEq, Repr

/-- The payload of a PROXY_FETCH_RESPONSE, as `resolveRequest` receives it. -/
structure ResponseData where
  ok : Bool
  status : Int
  statusText : String
  headers : List (String × String)
  body : Option String
  error : Option String
deriving DecidableEq, Repr

/-- `Map.get` over the association-list model of the pending table. -/
def mapGet {β : Type} : List (String × β) → String → Option β
  | [], _ => none
  | (k, v) :: rest, key => if k = key then some v else mapGet rest key

/-- `Map.delete` over the association-list model. -/
def mapDelete {β : Type} (m : List (String × β)) (key : String) : List (String × β) :=
  m.filter (fun p => p.fst ≠ key)

/-- One settlement of a caller's fetch promise, tagged with the correlation id
whose resolver/rejecter performed it. -/
inductive Settlement where
  | resolved (requestId : String) (response : ProxyResponse)
  | rejected (requestId : String) (message : String)
deriving DecidableEq, Repr

/-- `new ProxyResponse(data)` as `resolveRequest` builds it. -/
def mkProxyResponse (d : ResponseData) : ProxyResponse :=
  { ok := d.ok
    status := d.status
    statusText := d.statusText
    headers := d.headers
    body := d.body
    consumed := false }

/-- JavaScript truthiness of the optional `error` string
(`if (data.error)`). -/
def errorTruthy : Option String → Bool
  | none => false
  | some s => s ≠ ""

/-- `resolveRequest(requestId, data)`: looks the correlation id up in the
pending table; absent means no-op.  Present means: clear the timer, remove
the entry, and settle the promise — reject when `data.error` is truthy,
resolve with a fresh `ProxyResponse` otherwise. -/
def resolveRequest (tbl : List (String × PendingInfo)) (requestId : String)
    (data : ResponseData) : List (String × PendingInfo) × List Settlement :=
  match mapGet tbl requestId with
  | none => (tbl, [])
  | some _ =>
      let tbl1 := mapDelete tbl requestId
      if errorTruthy data.error then
        (tbl1, [.rejected requestId ("[proxy-fetch] " ++ (data.error.getD ""))])
      else
        (tbl1, [.resolved requestId (mkProxyResponse data)])

/-- `cleanup()`: rejects every pending request with an "Execution ended"
error and clears the table (the returned table is always empty). -/
def proxyFetchCleanup (tbl : List (String × PendingInfo)) :
    List (String × PendingInfo) × List Settlement :=
  ([], tbl.map (fun p => .rejected p.fst "[proxy-fetch] Execution ended"))

/-- `pendingCount()`. -/
def pendingCount (tbl : List (String × PendingInfo)) : Nat := tbl.length

theorem mapGet_delete {β : Type} (m : List (String × β)) (key : String) :
    mapGet (mapDelete m key) key = none := by
  induction m with
  | nil => rfl
  | cons p rest ih =>
      by_cases h : p.fst = key
      · simp [mapDelete, h] at ih ⊢
        exact ih
      · simp [mapDelete, h] at ih ⊢
        simp [mapGet, h, ih]

-- ============================================================
-- ui-bridge.service.ts — UI/Host Capability Proxy
-- ============================================================

/-- The bridge messages (`PluginMessage`) the modelled services send through
`callbacks.sendToUI`, from messages.types.ts. -/
inductive PluginMessage where
  | EXECUTION_STARTED (executionId projectId : String)
  | EXECUTION_LOG (executionId : String) (level : LogLevel) (message : String)
      (timestamp : Nat) (source : String) (stackTrace : Option String)
  | EXECUTION_DONE (executionId : String) (duration : Int)
  | EXECUTION_ERROR (executionId : String) (message : String) (stack : Option String)
  | PLUGIN_SHOW_UI (executionId html : String) (width height : Nat)
      (visible : Bool) (title : String)
  | PLUGIN_UI_POST_MESSAGE (executionId : String) (data : JsValue)
  | PLUGIN_UI_RESIZE (executionId : String) (width height : Nat)
  | PLUGIN_UI_CLOSE (executionId : String)
  | PROXY_FETCH_REQUEST (requestId url method : String)
      (headers : List (String × String)) (body : Option String)
deriving DecidableEq, Repr

/-- `MAX_HTML_SIZE` in ui-bridge.service.ts. -/
def MAX_HTML_SIZE : Nat := 1000000

/-- The options object `showUI` accepts. -/
structure ShowUIOpts where
  width : Option Nat := none
  height : Option Nat := none
  visible : Option Bool := none
  title : Option String := none
deriving DecidableEq, Repr

/-- The oversized-HTML error message; `(html.length / 1024).toFixed(0)` is
modelled as round-half-up integer division. -/
def htmlSizeErrMsg (len : Nat) : String :=
  "HTML trop volumineux: " ++ toString ((len + 512) / 1024) ++ "KB (max 977KB)"

/-- The malformed-HTML error message. -/
def htmlInvalidMsg : String := "HTML invalide: contenu vide ou sans balises"

/-- JavaScript `String.prototype.trim()`: strip whitespace from both ends
(defined over the character list so it is kernel-computable). -/
def jsTrim (s : String) : String :=
  ⟨((s.data.dropWhile Char.isWhitespace).reverse.dropWhile Char.isWhitespace).reverse⟩

/-- JavaScript `html.includes(c)` for a single-character needle. -/
def jsIncludesChar (s : String) (c : Char) : Bool :=
  s.data.contains c

/-- `figma.showUI(html, opts)` as intercepted by the proxy, returning the
bridge messages it sends.  The `onResizeRunner` host callback it may invoke
on success acts on the host window, not on the bridge, and is not an emitted
event.  Checks, in source order: no active execution (silent return);
`html.length > MAX_HTML_SIZE` (one EXECUTION_ERROR); `!html.trim()` or
html containing neither < nor > (one EXECUTION_ERROR); otherwise
defaults are resolved and one PLUGIN_SHOW_UI is sent. -/
def showUI (executionId : Option String) (html : String) (opts : Option ShowUIOpts) :
    List PluginMessage :=
  match executionId with
  | none => []
  | some eid =>
      if MAX_HTML_SIZE < html.length then
        [.EXECUTION_ERROR eid (htmlSizeErrMsg html.length) none]
      else if jsTrim html = "" ∨
          (jsIncludesChar html '<' = false ∧ jsIncludesChar html '>' = false) then
        [.EXECUTION_ERROR eid htmlInvalidMsg none]
      else
        let width := (opts.bind (·.width)).getD 300
        let height := (opts.bind (·.height)).getD 400
        let visible := (opts.bind (·.visible)) ≠ some false
        let title := (opts.bind (·.title)).getD ""
        [.PLUGIN_SHOW_UI eid html width height visible title]

/-- `figma.ui.postMessage(data)` as intercepted: no-op without an active
execution, one PLUGIN_UI_POST_MESSAGE otherwise. -/
def uiPostMessage (executionId : Option String) (data : JsValue) : List PluginMessage :=
  match executionId with
  | none => []
  | some eid => [.PLUGIN_UI_POST_MESSAGE eid data]

/-- `dispatchToPlugin(data)`: invokes the captured onmessage handler inside a
try/catch.  A handler is a script-supplied function that may throw
(`Except.error`); the catch branch logs through console.error and does not
rethrow, so the result of `dispatchToPlugin` itself is always `Except.ok`,
carrying the console.error lines it printed. -/
def dispatchToPlugin (handler : Option (JsValue → Except String Unit))
    (data : JsValue) : Except String (List String) :=
  match handler with
  | none => .ok []
  | some h =>
      match h data with
      | .ok _ => .ok []
      | .error e => .ok ["[ui-bridge] Error in plugin onmessage handler: " ++ e]

-- ============================================================
-- executor.service.ts — Executor (the figma-plugin tree version,
-- the one wired to proxy-fetch.service.ts)
-- ============================================================

/-- `EXECUTION_TIMEOUT_MS / 1000`. -/
def EXECUTION_TIMEOUT_S : Nat := 60

/-- The combined module-level state of the sandboxed services:
`currentExecutionId`, `timeoutHandle` (presence of the armed timer) and
`aborted` from executor.service.ts; the console.service state; the captured
`pluginOnMessageHandler` of ui-bridge.service.ts (its presence — the handler
function itself is passed separately where behaviour matters); and the
`pendingRequests` table of proxy-fetch.service.ts. -/
structure RunnerState where
  currentExecutionId : Option String
  timeoutArmed : Bool
  aborted : Bool
  console : ConsoleState
  handler : Option Unit
  pending : List (String × PendingInfo)
deriving DecidableEq, Repr

/-- Everything an executor-level operation makes observable: a bridge message
sent to the UI, or a settlement of a pending fetch promise. -/
inductive Event where
  | msg (m : PluginMessage)
  | settle (s : Settlement)
deriving DecidableEq, Repr

/-- The bridge messages within a list of events. -/
def msgsOf (evs : List Event) : List PluginMessage :=
  evs.filterMap fun e => match e with | .msg m => some m | .settle _ => none

/-- `softCleanup()` of the current executor.service.ts: clear the timeout
handle if armed — nothing else. -/
def softCleanup (st : RunnerState) : RunnerState :=
  { st with timeoutArmed := false }

/-- `fullCleanup()`: `consoleService.restore()`, `softCleanup()`,
`uiBridge.reset()`, `proxyFetchService.cleanup()` (which rejects every
pending request), then clear `currentExecutionId` and the `aborted` flag. -/
def fullCleanup (st : RunnerState) : RunnerState × List Event :=
  let st1 := { st with console := consoleRestore st.console }
  let st2 := softCleanup st1
  let st3 := { st2 with handler := none }
  let settles := (proxyFetchCleanup st3.pending).snd
  let st4 := { st3 with pending := [] }
  ({ st4 with currentExecutionId := none, aborted := false },
   settles.map Event.settle)

/-- The synchronous prefix of `execute(codeJs, uiHtml, projectId, callbacks)`
up to (and including) arming the 60s timer: full cleanup of a still
registered execution, minting the new id, clearing `aborted`, sending
EXECUTION_STARTED, overriding the console, creating the figma proxy (which
nulls the captured onmessage handler) and the proxy fetch, and arming the
timer.  What the script itself then does, and how its result is handled, is
modelled by the callback functions below. -/
def executeSetup (st : RunnerState) (newId projectId : String) :
    RunnerState × List Event :=
  let cleaned := if st.currentExecutionId.isSome then fullCleanup st else (st, [])
  let st1 := { cleaned.fst with currentExecutionId := some newId, aborted := false }
  let st2 := { st1 with console := overrideConsole st1.console }
  let st3 := { st2 with handler := none }
  let st4 := { st3 with timeoutArmed := true }
  (st4, cleaned.snd ++ [Event.msg (.EXECUTION_STARTED newId projectId)])

/-- The log-capture callback `execute` hands to `consoleService.override`:
drops the entry when `aborted` is set or the captured execution id no longer
matches, otherwise forwards it as EXECUTION_LOG. -/
def onLogCaptured (executionId : String) (log : CapturedLog) (st : RunnerState) :
    List Event :=
  if st.aborted ∨ st.currentExecutionId ≠ some executionId then []
  else
    [Event.msg (.EXECUTION_LOG executionId log.level log.message log.timestamp
      log.source log.stackTrace)]

/-- The 60s timeout callback: under the stale-guard, sets `aborted`, performs
full cleanup and reports the timeout as EXECUTION_ERROR. -/
def onTimeoutFire (executionId : String) (st : RunnerState) :
    RunnerState × List Event :=
  if st.currentExecutionId = some executionId ∧ st.aborted = false then
    let c := fullCleanup { st with aborted := true }
    (c.fst, c.snd ++ [Event.msg (.EXECUTION_ERROR executionId
      "Timeout: execution interrompue apres 60s" none)])
  else (st, [])

/-- Successful completion — both the synchronous branch and the promise
`.then` callback have this body: under the stale-guard, soft cleanup only,
then EXECUTION_DONE with the elapsed duration. -/
def onScriptResolve (executionId : String) (startTime now : Nat) (st : RunnerState) :
    RunnerState × List Event :=
  if st.aborted = false ∧ st.currentExecutionId = some executionId then
    (softCleanup st,
     [Event.msg (.EXECUTION_DONE executionId ((now : Int) - (startTime : Int)))])
  else (st, [])

/-- Failure — both the synchronous catch and the promise `.catch` callback:
under the stale-guard, full cleanup, then EXECUTION_ERROR with the extracted
message and stack. -/
def onScriptReject (executionId : String) (message : String) (stack : Option String)
    (st : RunnerState) : RunnerState × List Event :=
  if st.aborted = false ∧ st.currentExecutionId = some executionId then
    let c := fullCleanup st
    (c.fst, c.snd ++ [Event.msg (.EXECUTION_ERROR executionId message stack)])
  else (st, [])

/-- The `onClosePlugin` callback given to the figma proxy: under the
stale-guard, PLUGIN_UI_CLOSE first, then full cleanup, then EXECUTION_DONE
with the elapsed duration. -/
def onClosePlugin (executionId : String) (startTime now : Nat) (st : RunnerState) :
    RunnerState × List Event :=
  if st.currentExecutionId = some executionId ∧ st.aborted = false then
    let c := fullCleanup st
    (c.fst,
     Event.msg (.PLUGIN_UI_CLOSE executionId) :: c.snd ++
       [Event.msg (.EXECUTION_DONE executionId ((now : Int) - (startTime : Int)))])
  else (st, [])

/-- `stop(callbacks)`: no-op when no execution is registered; otherwise set
`aborted`, full cleanup, and EXECUTION_DONE with the -1 sentinel duration. -/
def stop (st : RunnerState) : RunnerState × List Event :=
  match st.currentExecutionId with
  | none => (st, [])
  | some eid =>
      let c := fullCleanup { st with aborted := true }
      (c.fst, c.snd ++ [Event.msg (.EXECUTION_DONE eid (-1))])

-- ============================================================
-- Helper lemmas shared by several claims
-- ============================================================

theorem runCalls_append (a b : List ConsoleCallInput) (st : ConsoleState) :
    runCalls (a ++ b) st =
      ((runCalls b (runCalls a st).fst).fst,
       (runCalls a st).snd ++ (runCalls b (runCalls a st).fst).snd) := by
  induction a generalizing st with
  | nil => simp [runCalls]
  | cons i rest ih => simp [runCalls, ih]

theorem msgsOf_settles (l : List Settlement) :
    msgsOf (l.map Event.settle) = [] := by
  induction l with
  | nil => rfl
  | cons s rest ih => simp_all [msgsOf]

theorem msgsOf_cleanup_append (s : RunnerState) (m : PluginMessage) :
    msgsOf ((fullCleanup s).snd ++ [Event.msg m]) = [m] := by
  have h := msgsOf_settles ((proxyFetchCleanup s.pending).snd)
  simp only [msgsOf, List.filterMap_append] at h ⊢
  simp [fullCleanup, h]

theorem fullCleanup_fields (st : RunnerState) :
    (fullCleanup st).fst.currentExecutionId = none ∧
    (fullCleanup st).fst.pending = [] ∧
    (fullCleanup st).fst.handler = none ∧
    (fullCleanup st).fst.console.isOverridden = false ∧
    (fullCleanup st).fst.aborted = false ∧
    (fullCleanup st).fst.timeoutArmed = false := by
  by_cases h : st.console.isOverridden <;>
    simp [fullCleanup, softCleanup, consoleRestore, proxyFetchCleanup, h]

-- ============================================================
-- Claim theorems
-- ============================================================

/-- Claim C1: a call to `execute` made while an execution is registered runs
the full cleanup of the old execution first — after that cleanup the old id
no longer matches (`currentExecutionId = none`), the pending table, captured
handler and console override are all torn down — and only then is the new
execution id assigned; the whole call behaves exactly like cleanup followed
by a fresh start. -/
theorem C1_supersede_cleans_before_new_id (st : RunnerState)
    (oldId newId projectId : String) (h : st.currentExecutionId = some oldId) :
    (fullCleanup st).fst.currentExecutionId = none ∧
    (fullCleanup st).fst.pending = [] ∧
    (fullCleanup st).fst.handler = none ∧
    (fullCleanup st).fst.console.isOverridden = false ∧
    executeSetup st newId projectId =
      ((executeSetup (fullCleanup st).fst newId projectId).fst,
       (fullCleanup st).snd ++ (executeSetup (fullCleanup st).fst newId projectId).snd) ∧
    (executeSetup st newId projectId).fst.currentExecutionId = some newId := by
  obtain ⟨h1, h2, h3, h4, h5, h6⟩ := fullCleanup_fields st
  refine ⟨h1, h2, h3, h4, ?_, ?_⟩
  · have hs : st.currentExecutionId.isSome = true := by simp [h]
    have hn : (fullCleanup st).fst.currentExecutionId.isSome = false := by simp [h1]
    simp [executeSetup, hs, hn]
  · simp [executeSetup]

/-- Claim C1 witness: a state with execution "old" registered, a pending
fetch and a captured handler is fully torn down before id "new" is
assigned. -/
theorem C1_supersede_cleans_before_new_id_witness :
    (fullCleanup ⟨some "old", true, false, ⟨true, true, 7, false⟩, some (),
        [("r1", ⟨true⟩)]⟩).fst.currentExecutionId = none ∧
    (fullCleanup ⟨some "old", true, false, ⟨true, true, 7, false⟩, some (),
        [("r1", ⟨true⟩)]⟩).fst.pending = [] ∧
    (fullCleanup ⟨some "old", true, false, ⟨true, true, 7, false⟩, some (),
        [("r1", ⟨true⟩)]⟩).fst.handler = none ∧
    (fullCleanup ⟨some "old", true, false, ⟨true, true, 7, false⟩, some (),
        [("r1", ⟨true⟩)]⟩).fst.console.isOverridden = false ∧
    executeSetup ⟨some "old", true, false, ⟨true, true, 7, false⟩, some (),
        [("r1", ⟨true⟩)]⟩ "new" "proj" =
      ((executeSetup (fullCleanup ⟨some "old", true, false, ⟨true, true, 7, false⟩,
          some (), [("r1", ⟨true⟩)]⟩).fst "new" "proj").fst,
       (fullCleanup ⟨some "old", true, false, ⟨true, true, 7, false⟩, some (),
          [("r1", ⟨true⟩)]⟩).snd ++
       (executeSetup (fullCleanup ⟨some "old", true, false, ⟨true, true, 7, false⟩,
          some (), [("r1", ⟨true⟩)]⟩).fst "new" "proj").snd) ∧
    (executeSetup ⟨some "old", true, false, ⟨true, true, 7, false⟩, some (),
        [("r1", ⟨true⟩)]⟩ "new" "proj").fst.currentExecutionId = some "new" :=
  C1_supersede_cleans_before_new_id _ "old" "new" "proj" rfl

/-- Claim C2: once the aborted flag is set or the captured execution id no
longer equals the active one, each of the five late asynchronous callbacks —
log capture, timeout fire, promise resolution, promise rejection, close — is
a no-op: the state is unchanged and no event is emitted. -/
theorem C2_stale_callbacks_are_noops (st : RunnerState) (eid : String)
    (h : st.aborted = true ∨ st.currentExecutionId ≠ some eid) :
    (∀ log, onLogCaptured eid log st = []) ∧
    onTimeoutFire eid st = (st, []) ∧
    (∀ t0 t1, onScriptResolve eid t0 t1 st = (st, [])) ∧
    (∀ m s, onScriptReject eid m s st = (st, [])) ∧
    (∀ t0 t1, onClosePlugin eid t0 t1 st = (st, [])) := by
  have hg : ¬ (st.currentExecutionId = some eid ∧ st.aborted = false) := by
    rcases h with h | h <;> simp [h]
  have hg2 : ¬ (st.aborted = false ∧ st.currentExecutionId = some eid) := by
    rcases h with h | h <;> simp [h]
  refine ⟨?_, ?_, ?_, ?_, ?_⟩
  · intro log; simp [onLogCaptured, h]
  · simp [onTimeoutFire, hg]
  · intro t0 t1; simp [onScriptResolve, hg2]
  · intro m s; simp [onScriptReject, hg2]
  · intro t0 t1; simp [onClosePlugin, hg]

/-- Claim C2 witness: after `stop`-style teardown the id is gone, so every
callback captured by execution "e1" does nothing. -/
theorem C2_stale_callbacks_are_noops_witness :
    ((⟨none, false, false, ⟨false, false, 0, false⟩, none, []⟩ :
        RunnerState).aborted = true ∨
      (⟨none, false, false, ⟨false, false, 0, false⟩, none, []⟩ :
        RunnerState).currentExecutionId ≠ some "e1") ∧
    onTimeoutFire "e1"
        ⟨none, false, false, ⟨false, false, 0, false⟩, none, []⟩ =
      (⟨none, false, false, ⟨false, false, 0, false⟩, none, []⟩, []) ∧
    onScriptResolve "e1" 0 9
        ⟨none, false, false, ⟨false, false, 0, false⟩, none, []⟩ =
      (⟨none, false, false, ⟨false, false, 0, false⟩, none, []⟩, []) :=
  have h : (⟨none, false, false, ⟨false, false, 0, false⟩, none, []⟩ :
      RunnerState).aborted = true ∨
      (⟨none, false, false, ⟨false, false, 0, false⟩, none, []⟩ :
        RunnerState).currentExecutionId ≠ some "e1" := by
    right; simp
  have main := C2_stale_callbacks_are_noops
    ⟨none, false, false, ⟨false, false, 0, false⟩, none, []⟩ "e1" h
  ⟨h, main.2.1, main.2.2.1 0 9⟩

/-- Claim C3: within one activation of the console override, a run of 1000
intercepted calls followed by a 1001st and then any further calls delivers
exactly the first 1000 entries plus exactly one synthetic cap warning (1001
deliveries in all), and every intercepted call after the cap delivers
nothing. -/
theorem C3_log_cap_1001 (c0 : ConsoleState) (xs : List ConsoleCallInput)
    (x : ConsoleCallInput) (rest : List ConsoleCallInput)
    (h0 : c0.isOverridden = false) (hlen : xs.length = 1000) :
    (runCalls (xs ++ x :: rest) (overrideConsole c0)).snd
        = xs.map mkEntry ++ [capEntry x.time] ∧
    (runCalls (xs ++ x :: rest) (overrideConsole c0)).snd.length = 1001 ∧
    (∀ more, runCalls more (runCalls (xs ++ x :: rest) (overrideConsole c0)).fst
        = ((runCalls (xs ++ x :: rest) (overrideConsole c0)).fst, [])) := by
  have hover : overrideConsole c0 =
      { isOverridden := true, origSaved := true, logCount := 0, capReached := false } := by
    simp [overrideConsole, h0]
  have hxs : runCalls xs (overrideConsole c0) =
      ({ isOverridden := true, origSaved := true, logCount := xs.length,
         capReached := false }, xs.map mkEntry) := by
    rw [hover]
    have h := runCalls_below_cap xs
      { isOverridden := true, origSaved := true, logCount := 0, capReached := false }
      rfl (by simp [hlen, MAX_LOGS_PER_EXECUTION])
    simpa using h
  have hcap : runCalls (x :: rest)
      ({ isOverridden := true, origSaved := true, logCount := xs.length,
         capReached := false } : ConsoleState) =
      ({ isOverridden := true, origSaved := true, logCount := xs.length,
         capReached := true }, [capEntry x.time]) := by
    exact runCalls_at_cap x rest _ rfl (by simp [hlen, MAX_LOGS_PER_EXECUTION])
  have hall : runCalls (xs ++ x :: rest) (overrideConsole c0) =
      ({ isOverridden := true, origSaved := true, logCount := xs.length,
         capReached := true }, xs.map mkEntry ++ [capEntry x.time]) := by
    rw [runCalls_append, hxs]
    simp [hcap]
  refine ⟨by simp [hall], by simp [hall, hlen], ?_⟩
  intro more
  rw [hall]
  exact runCalls_capReached more _ rfl

/-- Claim C3 witness: 1000 console.log calls, then a 1001st and two more,
from a fresh override, deliver exactly 1001 entries. -/
theorem C3_log_cap_1001_witness :
    (runCalls (List.replicate 1000 (⟨LogLevel.info, [], 0⟩ : ConsoleCallInput) ++
        (⟨LogLevel.warn, [JsValue.str "spam"], 5⟩ : ConsoleCallInput) ::
        [⟨LogLevel.error, [], 6⟩, ⟨LogLevel.info, [], 7⟩])
      (overrideConsole ⟨false, false, 0, false⟩)).snd.length = 1001 :=
  (C3_log_cap_1001 ⟨false, false, 0, false⟩ _ _ _ rfl (by simp)).2.1

/-- Claim C4 counterexample: on successful completion the part_013 executor's
soft cleanup does not deactivate Diagnostics Capture.  In a state with the
console override active and the stale-guard passing, the state after the
success callback still has the override installed, refuting "Diagnostics
Capture is deactivated". -/
theorem C4_soft_cleanup_counterexample :
    ((⟨some "e", true, false, ⟨true, true, 5, false⟩, some (), []⟩ :
        RunnerState).aborted = false) ∧
    ((⟨some "e", true, false, ⟨true, true, 5, false⟩, some (), []⟩ :
        RunnerState).currentExecutionId = some "e") ∧
    ((⟨some "e", true, false, ⟨true, true, 5, false⟩, some (), []⟩ :
        RunnerState).console.isOverridden = true) ∧
    ¬ ((onScriptResolve "e" 0 7
        ⟨some "e", true, false, ⟨true, true, 5, false⟩, some (), []⟩
        ).fst.console.isOverridden = false) := by
  refine ⟨rfl, rfl, rfl, ?_⟩
  simp [onScriptResolve, softCleanup]

/-- Claim C4 as amended: on synchronous or asynchronous success (stale-guard
passing) the Executor performs only a soft cleanup that stops the timeout;
Diagnostics Capture stays in whatever state it was (it is not deactivated),
the execution id is not cleared, and the proxies' state — the captured
onmessage handler and the pending-request table — is unchanged; one
EXECUTION_DONE event with the elapsed duration is emitted. -/
theorem C4_soft_cleanup_amended (st : RunnerState) (eid : String) (t0 t1 : Nat)
    (h1 : st.aborted = false) (h2 : st.currentExecutionId = some eid) :
    onScriptResolve eid t0 t1 st =
      ({ st with timeoutArmed := false },
       [Event.msg (.EXECUTION_DONE eid ((t1 : Int) - (t0 : Int)))]) ∧
    (onScriptResolve eid t0 t1 st).fst.currentExecutionId = some eid ∧
    (onScriptResolve eid t0 t1 st).fst.console = st.console ∧
    (onScriptResolve eid t0 t1 st).fst.handler = st.handler ∧
    (onScriptResolve eid t0 t1 st).fst.pending = st.pending ∧
    (onScriptResolve eid t0 t1 st).fst.timeoutArmed = false := by
  simp [onScriptResolve, softCleanup, h1, h2]

/-- Claim C4 amended witness: a concrete successful completion keeps the
console override, the handler and a pending fetch alive. -/
theorem C4_soft_cleanup_amended_witness :
    onScriptResolve "e" 2 9
        ⟨some "e", true, false, ⟨true, true, 5, false⟩, some (), [("r1", ⟨true⟩)]⟩ =
      ({ (⟨some "e", true, false, ⟨true, true, 5, false⟩, some (), [("r1", ⟨true⟩)]⟩ :
          RunnerState) with timeoutArmed := false },
       [Event.msg (.EXECUTION_DONE "e" ((9 : Int) - (2 : Int)))]) ∧
    (onScriptResolve "e" 2 9
        ⟨some "e", true, false, ⟨true, true, 5, false⟩, some (), [("r1", ⟨true⟩)]⟩
      ).fst.currentExecutionId = some "e" :=
  have main := C4_soft_cleanup_amended
    ⟨some "e", true, false, ⟨true, true, 5, false⟩, some (), [("r1", ⟨true⟩)]⟩
    "e" 2 9 rfl rfl
  ⟨main.1, main.2.1⟩

/-- Claim C5: `stop()` is a no-op when no execution is registered; otherwise
it performs full cleanup — afterwards the pending table is empty, the
captured UI-message handler is null and the console override is deactivated —
and the only bridge message it emits is EXECUTION_DONE with the -1 sentinel
duration. -/
theorem C5_stop_cleanup (st : RunnerState) :
    (st.currentExecutionId = none → stop st = (st, [])) ∧
    (∀ eid, st.currentExecutionId = some eid →
      pendingCount (stop st).fst.pending = 0 ∧
      (stop st).fst.handler = none ∧
      (stop st).fst.console.isOverridden = false ∧
      msgsOf (stop st).snd = [.EXECUTION_DONE eid (-1)]) := by
  constructor
  · intro h
    simp [stop, h]
  · intro eid h
    have hstop : stop st =
        ((fullCleanup { st with aborted := true }).fst,
         (fullCleanup { st with aborted := true }).snd ++
           [Event.msg (.EXECUTION_DONE eid (-1))]) := by
      simp [stop, h]
    obtain ⟨f1, f2, f3, f4, f5, f6⟩ := fullCleanup_fields { st with aborted := true }
    refine ⟨?_, ?_, ?_, ?_⟩
    · simp [hstop, pendingCount, f2]
    · simp [hstop, f3]
    · simp [hstop, f4]
    · rw [hstop]
      exact msgsOf_cleanup_append _ _

/-- Claim C5 witness: stopping a live execution with two pending fetches and
a captured handler leaves nothing behind and reports duration -1. -/
theorem C5_stop_cleanup_witness :
    pendingCount (stop ⟨some "e", true, false, ⟨true, true, 3, false⟩, some (),
        [("r1", ⟨true⟩), ("r2", ⟨true⟩)]⟩).fst.pending = 0 ∧
    (stop ⟨some "e", true, false, ⟨true, true, 3, false⟩, some (),
        [("r1", ⟨true⟩), ("r2", ⟨true⟩)]⟩).fst.handler = none ∧
    (stop ⟨some "e", true, false, ⟨true, true, 3, false⟩, some (),
        [("r1", ⟨true⟩), ("r2", ⟨true⟩)]⟩).fst.console.isOverridden = false ∧
    msgsOf (stop ⟨some "e", true, false, ⟨true, true, 3, false⟩, some (),
        [("r1", ⟨true⟩), ("r2", ⟨true⟩)]⟩).snd = [.EXECUTION_DONE "e" (-1)] :=
  (C5_stop_cleanup _).2 "e" rfl

/-- Whether a bridge message is an execution-error event. -/
def isErrorMsg : PluginMessage → Bool
  | .EXECUTION_ERROR _ _ _ => true
  | _ => false

/-- Whether a bridge message is a show-UI event. -/
def isShowMsg : PluginMessage → Bool
  | .PLUGIN_SHOW_UI _ _ _ _ _ _ => true
  | _ => false

/-- Claim C6 counterexample: the claim requires an execution-error event for
html lacking an angle-bracket *pair*, but `showUI` only errors when the html
contains neither < nor >.  The input "a<" is non-blank, within the size
ceiling, and has no angle-bracket pair, yet `showUI` emits no error and one
show-UI event. -/
theorem C6_showUI_counterexample :
    ¬ (jsIncludesChar "a<" '<' = true ∧ jsIncludesChar "a<" '>' = true) ∧
    jsTrim "a<" ≠ "" ∧
    ¬ (MAX_HTML_SIZE < ("a<" : String).length) ∧
    (showUI (some "e") "a<" none).countP isErrorMsg = 0 ∧
    showUI (some "e") "a<" none = [.PLUGIN_SHOW_UI "e" "a<" 300 400 true ""] := by
  decide

/-- Claim C6 as amended: for a showUI call during an active execution — if
the html is blank, contains neither < nor >, or exceeds 1,000,000
characters, exactly one execution-error event and no show-UI event is
emitted; otherwise exactly one show-UI event carrying the html with defaults
width 300, height 400, visible true unless opts.visible is exactly false,
and empty title. -/
theorem C6_showUI_amended (eid html : String) (opts : Option ShowUIOpts) :
    ((MAX_HTML_SIZE < html.length ∨ jsTrim html = "" ∨
        (jsIncludesChar html '<' = false ∧ jsIncludesChar html '>' = false)) →
      ((showUI (some eid) html opts).countP isErrorMsg = 1 ∧
       (showUI (some eid) html opts).countP isShowMsg = 0)) ∧
    (¬ (MAX_HTML_SIZE < html.length ∨ jsTrim html = "" ∨
        (jsIncludesChar html '<' = false ∧ jsIncludesChar html '>' = false)) →
      showUI (some eid) html opts =
        [.PLUGIN_SHOW_UI eid html ((opts.bind (·.width)).getD 300)
          ((opts.bind (·.height)).getD 400)
          ((opts.bind (·.visible)) ≠ some false) ((opts.bind (·.title)).getD "")]) := by
  by_cases hc1 : MAX_HTML_SIZE < html.length
  · refine ⟨fun _ => ?_, fun hno => absurd (Or.inl hc1) hno⟩
    simp [showUI, hc1, isErrorMsg, isShowMsg]
  · by_cases hc2 : jsTrim html = "" ∨
        (jsIncludesChar html '<' = false ∧ jsIncludesChar html '>' = false)
    · refine ⟨fun _ => ?_, fun hno => absurd (Or.inr hc2) hno⟩
      simp [showUI, hc1, hc2, isErrorMsg, isShowMsg]
    · refine ⟨fun hyes => ?_, fun _ => ?_⟩
      · rcases hyes with hyes | hyes
        · exact absurd hyes hc1
        · exact absurd hyes hc2
      · simp [showUI, hc1, hc2]

/-- Claim C6 amended witness: blank html yields one error and no show event;
valid html with an explicit width yields one show event with the remaining
defaults. -/
theorem C6_showUI_amended_witness :
    ((showUI (some "e") "" none).countP isErrorMsg = 1 ∧
     (showUI (some "e") "" none).countP isShowMsg = 0) ∧
    showUI (some "e") "<h1>hi</h1>"
        (some { width := some 500, height := none, visible := none, title := none }) =
      [.PLUGIN_SHOW_UI "e" "<h1>hi</h1>" 500 400 true ""] :=
  ⟨(C6_showUI_amended "e" "" none).1 (Or.inr (Or.inl (by decide))),
   (C6_showUI_amended "e" "<h1>hi</h1>"
      (some { width := some 500, height := none, visible := none, title := none })).2
     (by decide)⟩
/-- Claim C7: a successful text/json/blob call marks the body consumed; once
consumed, every one of the three accessors rejects with the
already-consumed error; arrayBuffer always rejects; clone returns an
unconsumed copy sharing the body snapshot, and text succeeds on both the
original and the clone with the same content. -/
theorem C7_response_one_shot (r : ProxyResponse)
    (parse : String → Except String JsValue) (h : r.consumed = false) :
    (∀ s r1, r.text = Except.ok (s, r1) → r1.consumed = true) ∧
    (∀ v r1, ProxyResponse.json parse r = Except.ok (v, r1) → r1.consumed = true) ∧
    (∀ b r1, r.blob = Except.ok (b, r1) → r1.consumed = true) ∧
    (∀ r2 : ProxyResponse, r2.consumed = true →
      r2.text = Except.error consumedMsg ∧
      ProxyResponse.json parse r2 = Except.error consumedMsg ∧
      r2.blob = Except.error consumedMsg) ∧
    r.arrayBuffer =
      Except.error "[proxy-fetch] arrayBuffer() not supported in Figma sandbox" ∧
    r.clone.consumed = false ∧
    r.clone.body = r.body ∧
    (∃ s r1 r2, r.text = Except.ok (s, r1) ∧ r.clone.text = Except.ok (s, r2)) := by
  have htext : r.text = Except.ok (r.body.getD "", { r with consumed := true }) := by
    simp [ProxyResponse.text, h]
  refine ⟨?_, ?_, ?_, ?_, rfl, rfl, rfl, ?_⟩
  · intro s r1 he
    rw [htext] at he
    simp only [Except.ok.injEq, Prod.mk.injEq] at he
    rw [← he.2]
  · intro v r1 he
    simp only [ProxyResponse.json, h, Bool.false_eq_true, if_false] at he
    rcases hb : r.body with _ | b
    · rw [hb] at he
      simp only [Except.ok.injEq, Prod.mk.injEq] at he
      rw [← he.2]
    · rw [hb] at he
      by_cases hbe : b = ""
      · simp only [hbe, if_true, Except.ok.injEq, Prod.mk.injEq, ite_true] at he
        rw [← he.2]
      · simp only [hbe, if_false, ite_false] at he
        rcases hp : parse b with e | w
        · rw [hp] at he
          simp [Except.map] at he
        · rw [hp] at he
          simp only [Except.map, Except.ok.injEq, Prod.mk.injEq] at he
          rw [← he.2]
  · intro b r1 he
    simp only [ProxyResponse.blob, h, Bool.false_eq_true, if_false,
      Except.ok.injEq, Prod.mk.injEq, ite_false] at he
    rw [← he.2]
  · intro r2 h2
    refine ⟨?_, ?_, ?_⟩ <;>
      simp [ProxyResponse.text, ProxyResponse.json, ProxyResponse.blob, h2]
  · refine ⟨r.body.getD "", { r with consumed := true },
      { r.clone with consumed := true }, htext, ?_⟩
    simp [ProxyResponse.text, ProxyResponse.clone]

/-- Claim C7 witness: a fresh 200 response with body "hello": arrayBuffer
rejects, and text on the original and on the clone both succeed with the
same content. -/
theorem C7_response_one_shot_witness :
    (⟨true, 200, "OK", [], some "hello", false⟩ : ProxyResponse).arrayBuffer =
      Except.error "[proxy-fetch] arrayBuffer() not supported in Figma sandbox" ∧
    (∃ s r1 r2,
      (⟨true, 200, "OK", [], some "hello", false⟩ : ProxyResponse).text =
        Except.ok (s, r1) ∧
      (⟨true, 200, "OK", [], some "hello", false⟩ : ProxyResponse).clone.text =
        Except.ok (s, r2)) :=
  have main := C7_response_one_shot ⟨true, 200, "OK", [], some "hello", false⟩
    (fun _ => Except.error "no parse") rfl
  ⟨main.2.2.2.2.1, main.2.2.2.2.2.2.2⟩

/-- The correlation id a settlement belongs to. -/
def settlementId : Settlement → String
  | .resolved rid _ => rid
  | .rejected rid _ => rid

/-- Claim C8: resolving a registered correlation id settles exactly one
promise (the one registered under that id) and removes the entry from the
pending table; a second resolveRequest with the same id changes nothing and
settles nothing. -/
theorem C8_resolve_settles_once (tbl : List (String × PendingInfo)) (rid : String)
    (d d2 : ResponseData) (info : PendingInfo) (h : mapGet tbl rid = some info) :
    (resolveRequest tbl rid d).snd.length = 1 ∧
    (∀ s ∈ (resolveRequest tbl rid d).snd, settlementId s = rid) ∧
    mapGet (resolveRequest tbl rid d).fst rid = none ∧
    resolveRequest (resolveRequest tbl rid d).fst rid d2 =
      ((resolveRequest tbl rid d).fst, []) := by
  have hres : (resolveRequest tbl rid d).fst = mapDelete tbl rid := by
    simp only [resolveRequest, h]
    by_cases he : errorTruthy d.error <;> simp [he]
  have hnone : mapGet (mapDelete tbl rid) rid = none := mapGet_delete tbl rid
  refine ⟨?_, ?_, ?_, ?_⟩
  · simp only [resolveRequest, h]
    by_cases he : errorTruthy d.error <;> simp [he]
  · intro s hs
    simp only [resolveRequest, h] at hs
    by_cases he : errorTruthy d.error <;>
      simp [he] at hs <;> simp [hs, settlementId]
  · rw [hres]; exact hnone
  · rw [hres]
    simp [resolveRequest, hnone]

/-- Claim C8 witness: a table holding correlation id "id1" is settled once
and the repeat call is a no-op. -/
theorem C8_resolve_settles_once_witness :
    (resolveRequest [("id1", ⟨true⟩)] "id1"
      ⟨true, 200, "OK", [], some "b", none⟩).snd.length = 1 ∧
    (∀ s ∈ (resolveRequest [("id1", ⟨true⟩)] "id1"
      ⟨true, 200, "OK", [], some "b", none⟩).snd, settlementId s = "id1") ∧
    mapGet (resolveRequest [("id1", ⟨true⟩)] "id1"
      ⟨true, 200, "OK", [], some "b", none⟩).fst "id1" = none ∧
    resolveRequest (resolveRequest [("id1", ⟨true⟩)] "id1"
        ⟨true, 200, "OK", [], some "b", none⟩).fst "id1"
        ⟨false, 500, "ERR", [], none, some "late"⟩ =
      ((resolveRequest [("id1", ⟨true⟩)] "id1"
        ⟨true, 200, "OK", [], some "b", none⟩).fst, []) :=
  C8_resolve_settles_once [("id1", ⟨true⟩)] "id1" _ _ ⟨true⟩ rfl

/-- Claim C9: dispatchToPlugin never throws — with no registered handler it
is a no-op, and an exception thrown by the script's handler is caught and
turned into a logged line, so the overall result is always `Except.ok`. -/
theorem C9_dispatch_never_throws (handler : Option (JsValue → Except String Unit))
    (data : JsValue) :
    (∃ logs, dispatchToPlugin handler data = Except.ok logs) ∧
    dispatchToPlugin none data = Except.ok ([] : List String) ∧
    (∀ hf e, handler = some hf → hf data = Except.error e →
      dispatchToPlugin handler data =
        Except.ok ["[ui-bridge] Error in plugin onmessage handler: " ++ e]) := by
  refine ⟨?_, rfl, ?_⟩
  · cases handler with
    | none => exact ⟨[], rfl⟩
    | some hf =>
        cases hh : hf data with
        | ok _ => exact ⟨[], by simp [dispatchToPlugin, hh]⟩
        | error e =>
            exact ⟨["[ui-bridge] Error in plugin onmessage handler: " ++ e],
              by simp [dispatchToPlugin, hh]⟩
  · intro hf e h1 h2
    subst h1
    simp [dispatchToPlugin, h2]

/-- Claim C9 witness: a handler that always throws "boom" is caught and
logged; the dispatch itself succeeds. -/
theorem C9_dispatch_never_throws_witness :
    dispatchToPlugin (some (fun _ => Except.error "boom")) JsValue.nullV =
      Except.ok ["[ui-bridge] Error in plugin onmessage handler: boom"] :=
  (C9_dispatch_never_throws (some (fun _ => Except.error "boom")) JsValue.nullV).2.2
    (fun _ => Except.error "boom") "boom" rfl rfl

/-- Claim C10: on an unconsumed response whose body is null or the empty
string, json resolves to null without invoking the JSON parser at all (the
theorem holds for every parser, including one that always throws), and text
resolves to the empty string. -/
theorem C10_falsy_body (r : ProxyResponse) (parse : String → Except String JsValue)
    (h1 : r.consumed = false) (h2 : r.body = none ∨ r.body = some "") :
    ProxyResponse.json parse r =
      Except.ok (JsValue.nullV, { r with consumed := true }) ∧
    r.text = Except.ok ("", { r with consumed := true }) := by
  rcases h2 with h2 | h2 <;>
    simp [ProxyResponse.json, ProxyResponse.text, h1, h2]

/-- Claim C10 witness: a 204 response with empty-string body, under a parser
that always throws. -/
theorem C10_falsy_body_witness :
    ProxyResponse.json (fun _ => Except.error "parse must not run")
        ⟨true, 204, "No Content", [], some "", false⟩ =
      Except.ok (JsValue.nullV,
        { (⟨true, 204, "No Content", [], some "", false⟩ : ProxyResponse) with
            consumed := true }) ∧
    (⟨true, 204, "No Content", [], some "", false⟩ : ProxyResponse).text =
      Except.ok ("",
        { (⟨true, 204, "No Content", [], some "", false⟩ : ProxyResponse) with
            consumed := true }) :=
  C10_falsy_body _ _ rfl (Or.inr rfl)

end Runner
